import Mathlib

/-!
Shallow embedding of the event translation and rendering engine of the
Ontime Display Bridge (src/Ontime_Bridge_v0_1.ino).

The engine receives already-decoded JSON-like messages over a WebSocket,
extracts timer/title/color/playback fields, converts a signed millisecond
duration to minutes/seconds, resolves a color class and status label,
emits a 3-byte frame to the legacy numeric display, and renders two
16-character rows on a local LCD.  The embedding below models the
`WStype_TEXT` branch of `webSocketEvent`, the helpers `formatByte` and
`updateLcdTitle`, and the mutable globals `currentEventTitle` /
`scrollIndex` as an explicit state record.

Modelling conventions:
* Arduino `String` is modelled as Lean `String` (ASCII payloads; `length`
  counts characters).  `String::substring(from, to)` clamps `to` at the
  string length and returns the characters in `[from, to)`; `substrRange`
  below reproduces that for `from ≤ to`.
* The parsed `JSONVar` tree is modelled as optional-field records carrying
  exactly the properties the handler inspects via `hasOwnProperty`; a
  message that fails `JSON.parse` is `ParseResult.undef`.
* `long currentMs` is modelled as a mathematical `Int`: every arithmetic
  step of the handler is exact for all values representable in the
  source's 32-bit `long` except the single value `-2^31`, whose C
  `abs` is undefined behaviour, so there is no defined code behaviour to
  embed there.
* `int scrollIndex` is only ever assigned `0` or incremented from a
  non-negative value, so it is modelled as `Nat`; the lower bound
  `0 ≤ scrollIndex` of the scroll invariant is carried by the type.
* Hardware side effects (writes to `Serial1` and to the LCD) are modelled
  as explicit output values: the list of bytes written and the row
  contents printed.
* `updateLcdTitle` runs its body only when 400 ms have elapsed on the
  monotonic clock; `tickScroll` models that body (one "due" tick), the
  timing guard itself being real-time behaviour outside the embedding.
-/

/-- The nested `timer` object of a payload: exactly the properties the
handler reads (`label`, `title`, `current`, `color`, `colour`, `phase`,
`playback`), each `none` when `hasOwnProperty` is false. -/
structure TimerObj where
  label : Option String
  title : Option String
  current : Option Int
  color : Option String
  colour : Option String
  phase : Option String
  playback : Option String
deriving DecidableEq

/-- The nested `eventNow` object: the handler only reads its `title`. -/
structure EventNowObj where
  title : Option String
deriving DecidableEq

/-- The `payload` object: the handler reads the nested `eventNow` and
`timer` objects. -/
structure PayloadObj where
  eventNow : Option EventNowObj
  timer : Option TimerObj
deriving DecidableEq

/-- A successfully parsed document; the handler only reads `payload`. -/
structure Doc where
  payload : Option PayloadObj
deriving DecidableEq

/-- Result of `JSON.parse` on the inbound text: `undef` when
`JSON.typeof(doc) == "undefined"` (parse failure), otherwise the tree. -/
inductive ParseResult where
  | undef : ParseResult
  | ok : Doc → ParseResult
deriving DecidableEq

/-- The engine's mutable globals touched by the text handler and the
scroller: `String currentEventTitle` and `int scrollIndex`. -/
structure EngineState where
  currentEventTitle : String
  scrollIndex : Nat
deriving DecidableEq

/-- Boot value of the globals: `currentEventTitle = "Ontime"`,
`scrollIndex = 0`. -/
def initialState : EngineState := { currentEventTitle := "Ontime", scrollIndex := 0 }

/-- Observable hardware output of one invocation of the text handler:
the bytes written to `Serial1` (in order) and the 16-character line
printed on LCD row 1, if any. -/
structure HandlerOutput where
  serialBytes : List Nat
  lcdRow1 : Option String
deriving DecidableEq

/-- Output of a handler invocation that returns without writing
anything. -/
def HandlerOutput.empty : HandlerOutput := { serialBytes := [], lcdRow1 := none }

/-- Arduino `String::substring(l, r)`: the characters in positions
`[l, r)`, with `r` clamped to the string length (assumes `l ≤ r`, which
holds at every call site). -/
def substrRange (s : String) (l r : Nat) : String :=
  String.mk ((s.data.drop l).take (r - l))

/-- `formatByte` from the source: convert an integer to BCD with swapped
nibbles, e.g. 12 ↦ 0x21 (high nibble = ones digit, low nibble = tens
digit).  Called only on `minutes ∈ [0,99]` and `seconds ∈ [0,59]`. -/
def formatByte (value : Nat) : Nat :=
  let tens := value / 10
  let ones := value % 10
  (ones <<< 4) ||| tens

/-- The padding loop `while (s.length() < 16) s += " ";` from the
source: appends spaces until the string is at least 16 characters. -/
def padTo16 (s : String) : String :=
  s ++ String.mk (List.replicate (16 - s.length) ' ')

/-- Step 4 of the handler (lines 190-207): convert the signed
milliseconds to minutes/seconds.  `absMs / 1000` floors; one second is
added exactly when `currentMs > 0` and the division had a remainder
(countdown rounds up to match the Ontime browser); minutes are capped at
99 for the two-digit display. -/
structure DisplayTime where
  minutes : Nat
  seconds : Nat
  isNegative : Bool
deriving DecidableEq

/-- Time conversion of the handler, producing the `DisplayTime` values
used by both the serial frame and the LCD row. -/
def timeFromMs (currentMs : Int) : DisplayTime :=
  let absMs : Nat := currentMs.natAbs
  let totalSeconds : Nat := absMs / 1000
  let totalSeconds : Nat :=
    if currentMs > 0 ∧ absMs % 1000 ≠ 0 then totalSeconds + 1 else totalSeconds
  let minutes := totalSeconds / 60
  let seconds := totalSeconds % 60
  let minutes := if minutes > 99 then 99 else minutes
  { minutes := minutes, seconds := seconds, isNegative := decide (currentMs < 0) }

/-- Step 5 of the handler (lines 209-226): determine the color string.
`colorTag` is the merged explicit color (`color` checked before
`colour`); when absent, a negative time forces `"red"`, else the
`phase` property is tested against `"overtime"`, `"warn"`, `"warning"`
in source order, starting from the default `"green"`. -/
def resolveCStr (colorTag : Option String) (isNeg : Bool) (phaseTag : Option String) : String :=
  match colorTag with
  | some c => c
  | none =>
    if isNeg then "red"
    else
      match phaseTag with
      | some phase =>
        let c := "green"
        let c := if phase = "overtime" then "red" else c
        let c := if phase = "warn" then "amber" else c
        if phase = "warning" then "amber" else c
      | none => "green"

/-- Step 6 of the handler (lines 228-240), byte half: map the color
string to the wire byte (red = 0x02, amber = 0x03, anything else =
0x01). -/
def colorByteOf (cStr : String) : Nat :=
  if cStr = "red" then 0x02 else if cStr = "amber" then 0x03 else 0x01

/-- Step 6 of the handler, label half: map the color string to the LCD
status label (red = "Over", amber = "Warn", anything else =
"Running"). -/
def lcdStatusOf (cStr : String) : String :=
  if cStr = "red" then "Over" else if cStr = "amber" then "Warn" else "Running"

/-- Lines 242-248: when a `playback` property is present and its value
is neither `"play"` nor `"start"`, the status label is overridden to
`"Stopped"`; an absent property leaves the label alone. -/
def applyPlaybackOverride (playbackTag : Option String) (lcdStatus : String) : String :=
  match playbackTag with
  | some playback =>
    if playback ≠ "play" ∧ playback ≠ "start" then "Stopped" else lcdStatus
  | none => lcdStatus

/-- Step 10 of the handler (lines 259-272): build LCD row 1, an optional
leading "-", zero-padded minutes, ":", zero-padded seconds, prefixed by
the status label and a space, padded with spaces to 16 characters and
truncated to 16 if longer. -/
def renderLine1 (lcdStatus : String) (minutes seconds : Nat) (isNeg : Bool) : String :=
  let timeStr := ""
  let timeStr := if isNeg then timeStr ++ "-" else timeStr
  let timeStr := if minutes < 10 then timeStr ++ "0" else timeStr
  let timeStr := timeStr ++ toString minutes ++ ":"
  let timeStr := if seconds < 10 then timeStr ++ "0" else timeStr
  let timeStr := timeStr ++ toString seconds
  let line1 := lcdStatus ++ " " ++ timeStr
  let line1 := padTo16 line1
  if line1.length > 16 then substrRange line1 0 16 else line1

/-- The body of the `corePayload.hasOwnProperty("timer")` block
(lines 168-275): resolve the title (`label` before `title`, else the
title carried in from the eventNow check), reset the scroll on a title
change, convert the time, resolve color/status, and emit the 3-byte
frame and LCD row 1.  `newTitle0` is the value of the local `newTitle`
on entry to the block. -/
def handleTimer (st : EngineState) (newTitle0 : String) (t : TimerObj) :
    EngineState × HandlerOutput :=
  let newTitle :=
    match t.label with
    | some l => l
    | none =>
      match t.title with
      | some ti => ti
      | none => newTitle0
  let st1 :=
    if newTitle ≠ st.currentEventTitle then
      { currentEventTitle := newTitle, scrollIndex := 0 }
    else st
  let currentMs : Int :=
    match t.current with
    | some c => c
    | none => 0
  let dt := timeFromMs currentMs
  let cStr := resolveCStr (t.color <|> t.colour) (decide (currentMs < 0)) t.phase
  let colorByte := colorByteOf cStr
  let lcdStatus := applyPlaybackOverride t.playback (lcdStatusOf cStr)
  let minByte := formatByte dt.minutes
  let secByte := formatByte dt.seconds
  let line1 := renderLine1 lcdStatus dt.minutes dt.seconds dt.isNegative
  (st1, { serialBytes := [minByte, secByte, colorByte], lcdRow1 := some line1 })

/-- The `WStype_TEXT` branch of `webSocketEvent` (lines 145-279): a
parse failure returns immediately; a document without a `payload`
property does nothing; otherwise the eventNow title (if any) seeds the
local `newTitle`, and only when a `timer` object is present does any
state change or output occur. -/
def handleText (st : EngineState) : ParseResult → EngineState × HandlerOutput
  | ParseResult.undef => (st, HandlerOutput.empty)
  | ParseResult.ok doc =>
    match doc.payload with
    | none => (st, HandlerOutput.empty)
    | some corePayload =>
      let newTitle :=
        match corePayload.eventNow with
        | some eventNow =>
          match eventNow.title with
          | some ti => ti
          | none => st.currentEventTitle
        | none => st.currentEventTitle
      match corePayload.timer with
      | none => (st, HandlerOutput.empty)
      | some timer => handleTimer st newTitle timer

/-- The body of `updateLcdTitle` (lines 89-120) for one due tick: a
title longer than 16 characters is scrolled by printing the 16-character
window of `title + "   " + title` at `scrollIndex` and advancing the
index, wrapping to 0 once it exceeds `length + 3`; a title of at most 16
characters is printed padded with spaces.  The returned string is what
is printed on LCD row 0. -/
def tickScroll (st : EngineState) : EngineState × String :=
  if st.currentEventTitle.length > 16 then
    let scrollBuffer := st.currentEventTitle ++ "   " ++ st.currentEventTitle
    let toPrint := substrRange scrollBuffer st.scrollIndex (st.scrollIndex + 16)
    let idx := st.scrollIndex + 1
    let idx := if idx > st.currentEventTitle.length + 3 then 0 else idx
    ({ st with scrollIndex := idx }, toPrint)
  else
    let line0 := padTo16 st.currentEventTitle
    (st, line0)

/-! ## Helper lemmas -/

/-- The minutes clamp of the source (`if (minutes > 99) minutes = 99;`)
is the same as taking a minimum with 99. -/
theorem clamp99_eq_min (x : Nat) : (if x > 99 then 99 else x) = min x 99 := by
  split <;> omega

/-- Only the state component of `handleTimer` depends on the engine
state and the carried-in title; the emitted output is a function of the
timer object alone. -/
theorem handleTimer_snd_eq (st1 st2 : EngineState) (nt1 nt2 : String) (t : TimerObj) :
    (handleTimer st1 nt1 t).2 = (handleTimer st2 nt2 t).2 := rfl

/-! ## Spec-side definitions

Each definition below follows the wording of the natural-language
specification (not the source) and is compared against the
corresponding source-derived definition by a refinement theorem. -/

/-- Total seconds following the wording of spec section 4.2: floor of
`|elapsedMs| / 1000`, incremented by exactly 1 when `elapsedMs > 0` and
the absolute value has a non-zero remainder modulo 1000. -/
def specTotalSeconds (elapsedMs : Int) : Nat :=
  elapsedMs.natAbs / 1000 +
    (if elapsedMs > 0 ∧ elapsedMs.natAbs % 1000 ≠ 0 then 1 else 0)

/-! ## C2: time formatter -/

/-- C2: for every signed `elapsedMs`, the time formatter produces
`totalSeconds = floor |elapsedMs| / 1000`, incremented by exactly 1 iff
`elapsedMs > 0` and `|elapsedMs| % 1000 ≠ 0`; `minutes` is
`min (totalSeconds / 60) 99` (clamped, not wrapped), `seconds` is
`totalSeconds % 60`, and `isNegative` is `elapsedMs < 0`. -/
theorem timeFromMs_spec (elapsedMs : Int) :
    timeFromMs elapsedMs =
      { minutes := min (specTotalSeconds elapsedMs / 60) 99,
        seconds := specTotalSeconds elapsedMs % 60,
        isNegative := decide (elapsedMs < 0) } := by
  unfold timeFromMs specTotalSeconds
  rcases em (elapsedMs > 0 ∧ elapsedMs.natAbs % 1000 ≠ 0) with h | h
  · simp only [if_pos h, ← clamp99_eq_min]
  · simp only [if_neg h, ← clamp99_eq_min, Nat.add_zero]

/-! ## C4: digit-pair encoder -/

/-- C4: the digit-pair encoder is pure: for every `v ∈ [0, 99]`,
`formatByte v = ((v % 10) <<< 4) ||| (v / 10)`, and decoding by
reversing the nibble order (tens = low nibble, ones = high nibble)
recovers `v` exactly. -/
theorem formatByte_roundtrip : ∀ v : Nat, v < 100 →
    formatByte v = ((v % 10) <<< 4) ||| (v / 10) ∧
    10 * (formatByte v &&& 0xF) + (formatByte v >>> 4) = v := by decide

/-- Witness for C4 at `v = 12` (encoded as `0x21`). -/
theorem formatByte_roundtrip_witness :
    12 < 100 ∧
    (formatByte 12 = ((12 % 10) <<< 4) ||| (12 / 10) ∧
     10 * (formatByte 12 &&& 0xF) + (formatByte 12 >>> 4) = 12) :=
  ⟨by decide, formatByte_roundtrip 12 (by decide)⟩

/-! ## C6: malformed messages are a no-op -/

/-- C6: a text message that fails to parse, or parses without a
`payload` property, changes no engine state, emits no serial bytes and
writes no display row. -/
theorem malformed_message_noop (st : EngineState) :
    handleText st ParseResult.undef = (st, HandlerOutput.empty) ∧
    handleText st (ParseResult.ok { payload := none }) = (st, HandlerOutput.empty) :=
  ⟨rfl, rfl⟩

/-! ## C3: eventNow title without a timer object -/

/-- A well-formed document whose payload carries an `eventNow.title`
but no `timer` object. -/
def titleOnlyDoc : Doc :=
  { payload := some { eventNow := some { title := some "New Show" }, timer := none } }

/-- Counterexample to C3: handling `titleOnlyDoc` from the boot state
leaves the displayed title at `"Ontime"` (the title update is NOT
applied, contrary to the claim) and produces no output at all. -/
theorem title_without_timer_counterexample :
    (handleText initialState (ParseResult.ok titleOnlyDoc)).1.currentEventTitle ≠ "New Show" ∧
    handleText initialState (ParseResult.ok titleOnlyDoc) = (initialState, HandlerOutput.empty) := by
  constructor
  · decide
  · rfl

/-- C3 as amended: for every message whose payload lacks a `timer`
object, the handler is a complete no-op — in particular an
`eventNow.title` alone is never applied to the displayed title; title
updates take effect only together with a timer update. -/
theorem title_without_timer_noop (st : EngineState) (p : PayloadObj) (h : p.timer = none) :
    handleText st (ParseResult.ok { payload := some p }) = (st, HandlerOutput.empty) := by
  obtain ⟨en, tm⟩ := p
  cases tm with
  | none => rfl
  | some t => simp at h

/-- Witness for the amended C3 on a payload carrying only an
`eventNow.title`. -/
theorem title_without_timer_noop_witness :
    ({ eventNow := some { title := some "New Show" }, timer := none } : PayloadObj).timer = none ∧
    handleText initialState
        (ParseResult.ok { payload := some { eventNow := some { title := some "New Show" }, timer := none } }) =
      (initialState, HandlerOutput.empty) :=
  ⟨rfl, title_without_timer_noop initialState _ rfl⟩

/-! ## C5: playback override -/

/-- C5: a `playback` value that is neither `"play"` nor `"start"`
overrides the status label to `"Stopped"`; an absent `playback` leaves
the label unchanged; and the 3-byte serial frame (including the color
byte) is identical with and without the `playback` property. -/
theorem playback_override_effect (st : EngineState) (nt : String) (t : TimerObj)
    (p : String) (hp : p ≠ "play") (hs : p ≠ "start") :
    (∀ s : String, applyPlaybackOverride (some p) s = "Stopped") ∧
    (∀ s : String, applyPlaybackOverride none s = s) ∧
    (handleTimer st nt { t with playback := some p }).2.serialBytes =
      (handleTimer st nt { t with playback := none }).2.serialBytes := by
  refine ⟨?_, ?_, ?_⟩
  · intro s
    simp [applyPlaybackOverride, hp, hs]
  · intro s
    rfl
  · rfl

/-- Witness for C5 with `playback = "stop"` on a red timer: the label
is overridden while the frame is unchanged. -/
theorem playback_override_effect_witness :
    ("stop" : String) ≠ "play" ∧ ("stop" : String) ≠ "start" ∧
    applyPlaybackOverride (some "stop") "Over" = "Stopped" ∧
    applyPlaybackOverride none "Over" = "Over" ∧
    (handleTimer initialState "Ontime"
        { label := none, title := none, current := some (-61500), color := some "red",
          colour := none, phase := none, playback := some "stop" }).2.serialBytes =
      (handleTimer initialState "Ontime"
        { label := none, title := none, current := some (-61500), color := some "red",
          colour := none, phase := none, playback := none }).2.serialBytes :=
  ⟨by decide, by decide,
   (playback_override_effect initialState "Ontime"
      { label := none, title := none, current := some (-61500), color := some "red",
        colour := none, phase := none, playback := some "stop" }
      "stop" (by decide) (by decide)).1 "Over",
   (playback_override_effect initialState "Ontime"
      { label := none, title := none, current := some (-61500), color := some "red",
        colour := none, phase := none, playback := some "stop" }
      "stop" (by decide) (by decide)).2.1 "Over",
   (playback_override_effect initialState "Ontime"
      { label := none, title := none, current := some (-61500), color := some "red",
        colour := none, phase := none, playback := none }
      "stop" (by decide) (by decide)).2.2⟩

/-! ## C10: outputs depend only on the timer object -/

/-- C10: the 3-byte serial frame and the status row written for a
timer-bearing message are a function of the message's `timer` object
alone — for any two engine states (any history of displayed titles and
scroll cursors) and any two documents carrying the same `timer` object,
the handler emits identical output. -/
theorem timer_output_noninterference
    (st1 st2 : EngineState) (d1 d2 : Doc) (p1 p2 : PayloadObj) (t : TimerObj)
    (h1 : d1.payload = some p1) (h2 : d2.payload = some p2)
    (ht1 : p1.timer = some t) (ht2 : p2.timer = some t) :
    (handleText st1 (ParseResult.ok d1)).2 = (handleText st2 (ParseResult.ok d2)).2 := by
  obtain ⟨pay1⟩ := d1
  obtain ⟨pay2⟩ := d2
  simp only [Doc.payload] at h1 h2
  subst h1
  subst h2
  obtain ⟨en1, tm1⟩ := p1
  obtain ⟨en2, tm2⟩ := p2
  simp only [PayloadObj.timer] at ht1 ht2
  subst ht1
  subst ht2
  exact handleTimer_snd_eq st1 st2 _ _ t

/-- Witness for C10: two different engine states and two documents that
differ everywhere except the timer object produce the same output. -/
theorem timer_output_noninterference_witness :
    (Doc.mk (some { eventNow := some { title := some "Show A" },
                    timer := some { label := none, title := none, current := some 61500,
                                    color := none, colour := none, phase := some "warn",
                                    playback := some "pause" } })).payload =
      some { eventNow := some { title := some "Show A" },
             timer := some { label := none, title := none, current := some 61500,
                             color := none, colour := none, phase := some "warn",
                             playback := some "pause" } } ∧
    (handleText initialState
        (ParseResult.ok
          (Doc.mk (some { eventNow := some { title := some "Show A" },
                          timer := some { label := none, title := none, current := some 61500,
                                          color := none, colour := none, phase := some "warn",
                                          playback := some "pause" } })))).2 =
      (handleText { currentEventTitle := "A Completely Different Long Title", scrollIndex := 7 }
        (ParseResult.ok
          (Doc.mk (some { eventNow := none,
                          timer := some { label := none, title := none, current := some 61500,
                                          color := none, colour := none, phase := some "warn",
                                          playback := some "pause" } })))).2 :=
  ⟨rfl,
   timer_output_noninterference initialState
     { currentEventTitle := "A Completely Different Long Title", scrollIndex := 7 }
     (Doc.mk (some { eventNow := some { title := some "Show A" },
                     timer := some { label := none, title := none, current := some 61500,
                                     color := none, colour := none, phase := some "warn",
                                     playback := some "pause" } }))
     (Doc.mk (some { eventNow := none,
                     timer := some { label := none, title := none, current := some 61500,
                                     color := none, colour := none, phase := some "warn",
                                     playback := some "pause" } }))
     _ _ _ rfl rfl rfl rfl⟩

/-! ## C1: status/color resolution -/

/-- Base status resolution following the wording of spec section 4.3
(precedence before the playback override): explicit `"red"` gives
red/"Over" (byte 0x02), explicit `"amber"` gives amber/"Warn" (0x03),
any other explicit value gives green/"Running" (0x01); with no explicit
color, a negative time forces red/"Over", then phase `"overtime"`
forces red/"Over" and `"warn"`/`"warning"` force amber/"Warn";
otherwise green/"Running". -/
def specStatusBase (colorTag phaseTag : Option String) (isNegative : Bool) : Nat × String :=
  match colorTag with
  | some c =>
    if c = "red" then (0x02, "Over")
    else if c = "amber" then (0x03, "Warn")
    else (0x01, "Running")
  | none =>
    if isNegative then (0x02, "Over")
    else if phaseTag = some "overtime" then (0x02, "Over")
    else if phaseTag = some "warn" ∨ phaseTag = some "warning" then (0x03, "Warn")
    else (0x01, "Running")

/-- Full status resolution following spec section 4.3: the base
resolution with the playback override applied last — playback values
`"play"` and `"start"` mean active (no change), any other present value
overrides the label to `"Stopped"`, an absent playback changes
nothing. -/
def specResolveStatus (colorTag phaseTag : Option String) (isNegative : Bool)
    (playbackTag : Option String) : Nat × String :=
  let base := specStatusBase colorTag phaseTag isNegative
  let label :=
    match playbackTag with
    | some p => if p = "play" ∨ p = "start" then base.2 else "Stopped"
    | none => base.2
  (base.1, label)

/-- The source's color-string resolution followed by the byte/label
mapping agrees with the spec's base precedence for every input. -/
theorem resolve_base_eq (colorTag phaseTag : Option String) (isNeg : Bool) :
    (colorByteOf (resolveCStr colorTag isNeg phaseTag),
     lcdStatusOf (resolveCStr colorTag isNeg phaseTag)) =
      specStatusBase colorTag phaseTag isNeg := by
  cases colorTag with
  | some c =>
    by_cases hr : c = "red"
    · subst hr; rfl
    · by_cases ha : c = "amber"
      · subst ha; rfl
      · simp [resolveCStr, colorByteOf, lcdStatusOf, specStatusBase, hr, ha]
  | none =>
    cases isNeg with
    | true => rfl
    | false =>
      cases phaseTag with
      | none => rfl
      | some phase =>
        by_cases h1 : phase = "overtime"
        · subst h1; rfl
        · by_cases h2 : phase = "warn"
          · subst h2; rfl
          · by_cases h3 : phase = "warning"
            · subst h3; rfl
            · simp [resolveCStr, colorByteOf, lcdStatusOf, specStatusBase, h1, h2, h3]

/-- The source's playback override agrees with the spec's wording for
every playback tag and label. -/
theorem override_eq (playbackTag : Option String) (s : String) :
    applyPlaybackOverride playbackTag s =
      (match playbackTag with
       | some p => if p = "play" ∨ p = "start" then s else "Stopped"
       | none => s) := by
  cases playbackTag with
  | none => rfl
  | some p =>
    by_cases hp : p = "play"
    · simp [applyPlaybackOverride, hp]
    · by_cases hs : p = "start"
      · simp [applyPlaybackOverride, hp, hs]
      · simp [applyPlaybackOverride, hp, hs]

/-- C1: status/color resolution is a total, deterministic function of
(colorTag, phaseTag, isNegative, playbackTag): the byte/label pair the
source computes (color string resolution, byte/label mapping, playback
override applied last) equals the spec's fixed precedence for every
combination of inputs, explicit colors first, then the negative-time
check, then the phase checks, defaulting to green/"Running". -/
theorem status_resolution_spec (colorTag phaseTag playbackTag : Option String) (isNeg : Bool) :
    (colorByteOf (resolveCStr colorTag isNeg phaseTag),
     applyPlaybackOverride playbackTag (lcdStatusOf (resolveCStr colorTag isNeg phaseTag))) =
      specResolveStatus colorTag phaseTag isNeg playbackTag := by
  have hb := resolve_base_eq colorTag phaseTag isNeg
  unfold specResolveStatus
  rw [override_eq, ← hb]

/-! ## C7: scroll-state invariant -/

/-- The state component of `handleTimer` is either the old state
(unchanged title) or a fresh state with the scroll index reset to 0. -/
theorem handleTimer_fst_cases (st : EngineState) (nt : String) (t : TimerObj) :
    (handleTimer st nt t).1 = st ∨ (handleTimer st nt t).1.scrollIndex = 0 := by
  unfold handleTimer
  dsimp only
  split
  · exact Or.inr rfl
  · exact Or.inl rfl

/-- The state after handling any text message is either the old state
or a state with the scroll index reset to 0. -/
theorem handleText_fst_cases (st : EngineState) (pr : ParseResult) :
    (handleText st pr).1 = st ∨ (handleText st pr).1.scrollIndex = 0 := by
  cases pr with
  | undef => exact Or.inl rfl
  | ok doc =>
    obtain ⟨pay⟩ := doc
    cases pay with
    | none => exact Or.inl rfl
    | some cp =>
      obtain ⟨en, tm⟩ := cp
      cases tm with
      | none => exact Or.inl rfl
      | some t =>
        simp only [handleText]
        exact handleTimer_fst_cases st _ t

/-- C7: the invariant `scrollIndex ≤ titleLength + 3` (the lower bound
`0 ≤ scrollIndex` is carried by the `Nat` type) is preserved by every
due scroll tick and by the handling of every message, and any message
that changes the displayed title resets the scroll index to 0 in the
same step. -/
theorem scroll_invariant (st : EngineState)
    (h : st.scrollIndex ≤ st.currentEventTitle.length + 3) :
    ((tickScroll st).1.scrollIndex ≤ (tickScroll st).1.currentEventTitle.length + 3) ∧
    (∀ pr : ParseResult,
      (handleText st pr).1.scrollIndex ≤ (handleText st pr).1.currentEventTitle.length + 3 ∧
      ((handleText st pr).1.currentEventTitle ≠ st.currentEventTitle →
        (handleText st pr).1.scrollIndex = 0)) := by
  constructor
  · unfold tickScroll
    by_cases hl : st.currentEventTitle.length > 16
    · rw [if_pos hl]
      dsimp only
      split
      · exact Nat.zero_le _
      · omega
    · rw [if_neg hl]
      exact h
  · intro pr
    rcases handleText_fst_cases st pr with hc | hc
    · rw [hc]
      exact ⟨h, fun hne => absurd rfl hne⟩
    · refine ⟨?_, fun _ => hc⟩
      rw [hc]
      exact Nat.zero_le _

/-- Witness for C7 at the boot state. -/
theorem scroll_invariant_witness :
    initialState.scrollIndex ≤ initialState.currentEventTitle.length + 3 ∧
    (tickScroll initialState).1.scrollIndex ≤
      (tickScroll initialState).1.currentEventTitle.length + 3 :=
  ⟨by decide, (scroll_invariant initialState (by decide)).1⟩

/-! ## C8: scroll tick rendering -/

/-- C8: under the scroll invariant, a due tick on a title longer than
16 characters renders exactly the 16-character substring of
`title ++ "   " ++ title` starting at the cursor and advances the
cursor by 1, wrapping to 0 once it exceeds `titleLength + 3`; on a
title of at most 16 characters it renders the title left-justified and
space-padded to exactly 16 characters, leaving the state unchanged. -/
theorem scroll_tick_render (st : EngineState)
    (h : st.scrollIndex ≤ st.currentEventTitle.length + 3) :
    (st.currentEventTitle.length > 16 →
      ((tickScroll st).2.length = 16 ∧
       (tickScroll st).2 =
         String.mk (((st.currentEventTitle ++ "   " ++ st.currentEventTitle).data.drop
           st.scrollIndex).take 16) ∧
       (tickScroll st).1.currentEventTitle = st.currentEventTitle ∧
       (tickScroll st).1.scrollIndex =
         (if st.scrollIndex + 1 > st.currentEventTitle.length + 3 then 0
          else st.scrollIndex + 1))) ∧
    (st.currentEventTitle.length ≤ 16 →
      ((tickScroll st).2 =
         st.currentEventTitle ++ String.mk (List.replicate (16 - st.currentEventTitle.length) ' ') ∧
       (tickScroll st).2.length = 16 ∧
       (tickScroll st).1 = st)) := by
  have hbuf : (st.currentEventTitle ++ "   " ++ st.currentEventTitle).data.length
      = st.currentEventTitle.length + 3 + st.currentEventTitle.length := by
    rw [String.data_append, String.data_append, List.length_append, List.length_append]
    rfl
  constructor
  · intro hl
    unfold tickScroll
    rw [if_pos hl]
    dsimp only
    refine ⟨?_, ?_, rfl, rfl⟩
    · unfold substrRange
      rw [String.length_mk, List.length_take, List.length_drop, hbuf]
      omega
    · unfold substrRange
      have h16 : st.scrollIndex + 16 - st.scrollIndex = 16 := by omega
      rw [h16]
  · intro hs
    unfold tickScroll
    rw [if_neg (by omega : ¬ st.currentEventTitle.length > 16)]
    dsimp only
    refine ⟨rfl, ?_, rfl⟩
    unfold padTo16
    simp only [String.length_append, String.length_mk, List.length_replicate]
    omega

/-- Engine state used by the C8 witness: a 31-character title with the
scroll cursor at 5. -/
def longTitleState : EngineState :=
  { currentEventTitle := "This Is A Very Long Event Title", scrollIndex := 5 }

/-- Witness for C8: one due tick on a 31-character title with the
cursor at 5 renders the window at 5 and advances the cursor to 6. -/
theorem scroll_tick_render_witness :
    (longTitleState.scrollIndex ≤ longTitleState.currentEventTitle.length + 3) ∧
    (longTitleState.currentEventTitle.length > 16) ∧
    ((tickScroll longTitleState).2.length = 16 ∧
     (tickScroll longTitleState).2 =
       String.mk (((longTitleState.currentEventTitle ++ "   " ++
         longTitleState.currentEventTitle).data.drop longTitleState.scrollIndex).take 16) ∧
     (tickScroll longTitleState).1.currentEventTitle = longTitleState.currentEventTitle ∧
     (tickScroll longTitleState).1.scrollIndex =
       (if longTitleState.scrollIndex + 1 > longTitleState.currentEventTitle.length + 3 then 0
        else longTitleState.scrollIndex + 1)) :=
  ⟨by decide, by decide, (scroll_tick_render longTitleState (by decide)).1 (by decide)⟩

/-! ## C9: status row rendering -/

/-- Two-digit zero-padded decimal rendering used by spec section 4.6
("zero-padded minutes"/"zero-padded seconds"). -/
def specTwoDigits (v : Nat) : String :=
  (if v < 10 then "0" else "") ++ toString v

/-- Fit a line to exactly 16 characters following the wording of spec
section 4.6: right-truncate to 16 when longer, space-pad to exactly 16
when shorter. -/
def specFit16 (s : String) : String :=
  if 16 ≤ s.length then String.mk (s.data.take 16)
  else s ++ String.mk (List.replicate (16 - s.length) ' ')

/-- Status row following the wording of spec section 4.6 / claim C9:
status label, a space, an optional "-" when negative, two-digit
zero-padded minutes, ":", two-digit zero-padded seconds, fitted to
exactly 16 characters. -/
def specStatusRow (label : String) (m s : Nat) (isNeg : Bool) : String :=
  specFit16 (label ++ " " ++
    ((if isNeg then "-" else "") ++ specTwoDigits m ++ ":" ++ specTwoDigits s))

/-- The source's pad-then-truncate sequence agrees with the spec's
"space-padded or right-truncated" fitting for every string. -/
theorem fit_eq (s : String) :
    (if (padTo16 s).length > 16 then substrRange (padTo16 s) 0 16 else padTo16 s) =
      specFit16 s := by
  have hlen : (padTo16 s).length = s.length + (16 - s.length) := by
    unfold padTo16
    simp only [String.length_append, String.length_mk, List.length_replicate]
  by_cases h : s.length ≤ 16
  · have h16 : ¬ (padTo16 s).length > 16 := by omega
    rw [if_neg h16]
    unfold specFit16
    by_cases he : 16 ≤ s.length
    · have hsl : s.length = 16 := by omega
      rw [if_pos he]
      unfold padTo16
      rw [hsl]
      apply String.ext
      rw [String.data_append]
      have hd : s.data.length = s.length := rfl
      have : s.data.take 16 = s.data := List.take_of_length_le (by omega)
      simp [this]
    · rw [if_neg he]
      rfl
  · have hz : 16 - s.length = 0 := by omega
    have h16 : (padTo16 s).length > 16 := by omega
    rw [if_pos h16]
    unfold specFit16
    rw [if_pos (by omega : 16 ≤ s.length)]
    unfold substrRange padTo16
    rw [hz]
    apply String.ext
    simp [String.data_append]

/-- The spec's 16-character fit always yields exactly 16 characters. -/
theorem specFit16_length (s : String) : (specFit16 s).length = 16 := by
  unfold specFit16
  have hd : s.data.length = s.length := rfl
  by_cases h : 16 ≤ s.length
  · rw [if_pos h, String.length_mk, List.length_take]
    omega
  · rw [if_neg h]
    simp only [String.length_append, String.length_mk, List.length_replicate]
    omega

/-- Two-digit rendering really is two characters for every value the
formatter can produce. -/
theorem twoDigits_length : ∀ v : Nat, v < 100 → (specTwoDigits v).length = 2 := by decide

/-- C9: the rendered status row equals the status label, a space, an
optional "-" when negative, two-digit zero-padded minutes, ":", and
two-digit zero-padded seconds, space-padded or right-truncated to
exactly 16 characters; its length is always exactly 16, and the
minute/second fields are exactly two digits on their full ranges. -/
theorem status_row_spec (label : String) (m s : Nat) (neg : Bool) :
    renderLine1 label m s neg = specStatusRow label m s neg ∧
    (renderLine1 label m s neg).length = 16 ∧
    (m ≤ 99 → (specTwoDigits m).length = 2) ∧
    (s ≤ 59 → (specTwoDigits s).length = 2) := by
  have hmain : renderLine1 label m s neg = specStatusRow label m s neg := by
    unfold renderLine1 specStatusRow
    dsimp only
    rw [fit_eq]
    congr 1
    apply String.ext
    unfold specTwoDigits
    have he : ("" : String).data = [] := rfl
    cases neg <;> by_cases hm : m < 10 <;> by_cases hs' : s < 10 <;>
      simp [hm, hs', String.data_append, List.append_assoc, he]
  refine ⟨hmain, ?_, ?_, ?_⟩
  · rw [hmain]
    unfold specStatusRow
    exact specFit16_length _
  · intro hm
    exact twoDigits_length m (by omega)
  · intro hs'
    exact twoDigits_length s (by omega)

/-- Witness for C9 on label "Running", 5 minutes, 3 seconds,
non-negative. -/
theorem status_row_spec_witness :
    (5 : Nat) ≤ 99 ∧ (3 : Nat) ≤ 59 ∧
    renderLine1 "Running" 5 3 false = specStatusRow "Running" 5 3 false ∧
    (renderLine1 "Running" 5 3 false).length = 16 ∧
    (specTwoDigits 5).length = 2 ∧ (specTwoDigits 3).length = 2 :=
  ⟨by decide, by decide,
   (status_row_spec "Running" 5 3 false).1,
   (status_row_spec "Running" 5 3 false).2.1,
   (status_row_spec "Running" 5 3 false).2.2.1 (by decide),
   (status_row_spec "Running" 5 3 false).2.2.2 (by decide)⟩
